import Mathlib

/-!
Verification of the GCS response-shaping layer
(`src/globus_sdk/services/gcs/response.py`).

The Python module wraps a parsed-JSON HTTP response.  `UnpackingGCSResponse`
lazily scans the top-level `"data"` array for the first mapping element whose
`"DATA_TYPE"` tag satisfies a match predicate, memoizing the outcome;
`IterableGCSResponse` iterates over the `"data"` sub-sequence.  We embed the
Python values and the module's functions shallowly and prove the spec's claims
about them.
-/

namespace GlobusGCS

/-- A Python value as produced by parsing a JSON body (`json.loads`), plus
`none` for Python `None` (which also stands for an unparsable body).  Numbers
are modelled as integers; the module under verification never inspects numeric
values beyond `isinstance` checks, so this loses nothing relevant. -/
inductive PyValue where
  | none
  | bool (b : Bool)
  | int (n : Int)
  | str (s : String)
  | list (xs : List PyValue)
  | dict (kvs : List (String × PyValue))

/-- Association-list lookup modelling Python dict lookup: `Option.some v` when
the key is present with value `v`, `Option.none` when absent.  JSON objects
have each key at most once; lookup returns the first (and only) binding. -/
def lookup : List (String × PyValue) → String → Option PyValue
  | [], _ => Option.none
  | (k, v) :: rest, key => if k = key then Option.some v else lookup rest key

/-- Python `d.get(key)`: the stored value, or `None` when the key is absent. -/
def dictGet (kvs : List (String × PyValue)) (key : String) : PyValue :=
  match lookup kvs key with
  | Option.some v => v
  | Option.none => PyValue.none

/-- Python `isinstance(v, str)`. -/
def pyIsStr : PyValue → Bool
  | PyValue.str _ => true
  | _ => false

/-- Python `isinstance(v, dict)`. -/
def pyIsDict : PyValue → Bool
  | PyValue.dict _ => true
  | _ => false

/-- The string carried by a `PyValue.str`; only ever used under a `pyIsStr`
guard, mirroring Python code that indexes a value already checked with
`isinstance(…, str)`. -/
def pyStrVal : PyValue → String
  | PyValue.str s => s
  | _ => ""

/-- Model of a compiled regular expression (Python `re.Pattern`).  The `re`
standard library is external to this repository, so a compiled pattern is
abstracted by its full-match semantics: `accepts s` is true exactly when the
entire string `s` matches the pattern start-to-end. -/
structure RePattern where
  accepts : String → Bool

/-- `re.Pattern.fullmatch`: a match object (abstracted to `Unit`) when the
whole string matches, Python `None` otherwise. -/
def RePattern.fullmatch (p : RePattern) (s : String) : Option Unit :=
  if p.accepts s then Option.some () else Option.none

/-- Python `bool(...)` applied to a fullmatch result: a match object is
truthy, `None` is falsy. -/
def pyTruthy : Option Unit → Bool
  | Option.some _ => true
  | Option.none => false

/-- The inner `match_func` of `_default_unpacking_match` (response.py:26-31):
reject mappings without a `"DATA_TYPE"` key, reject a non-string value, and
otherwise test the whole string against the compiled pattern. -/
def match_func (compiled_pattern : RePattern) (data : List (String × PyValue)) : Bool :=
  if (lookup data "DATA_TYPE").isSome = false then false
  else if pyIsStr (dictGet data "DATA_TYPE") = false then false
  else pyTruthy (compiled_pattern.fullmatch (pyStrVal (dictGet data "DATA_TYPE")))

/-- `_default_unpacking_match` (response.py:23-33).  `re.compile` is external
to the repository and is passed in abstractly as `re_compile`, which returns
`Option.none` when the pattern is an invalid regular expression (Python raises
`re.error` there, which propagates out of the construction).  Compilation
happens here, before the predicate is built; the returned predicate closes
over the compiled pattern only. -/
def _default_unpacking_match (re_compile : String → Option RePattern)
    (pattern : String) : Option (List (String × PyValue) → Bool) :=
  match re_compile pattern with
  | Option.some compiled_pattern => Option.some (match_func compiled_pattern)
  | Option.none => Option.none

/-- The scan inside `UnpackingGCSResponse._unpack` (response.py:83-85): walk
the `"data"` list in order; an element that is a dict and satisfies the
predicate is returned immediately; all other elements are passed over. -/
def findFirst (mf : List (String × PyValue) → Bool) : List PyValue → Option PyValue
  | [] => Option.none
  | item :: rest =>
    match item with
    | PyValue.dict kvs =>
      if mf kvs then Option.some (PyValue.dict kvs) else findFirst mf rest
    | _ => findFirst mf rest

/-- `UnpackingGCSResponse._unpack` (response.py:75-86): when the parsed JSON
is a dict whose `"data"` key holds a list, scan that list; in every other
shape return `None`. -/
def _unpack (mf : List (String × PyValue) → Bool) (parsed : PyValue) :
    Option PyValue :=
  match parsed with
  | PyValue.dict kvs =>
    match dictGet kvs "data" with
    | PyValue.list items => findFirst mf items
    | _ => Option.none
  | _ => Option.none

/-- State of an `UnpackingGCSResponse` (response.py:52-66): the wrapped
response's parsed JSON plus the two memoization fields initialized in
`__init__` (`_unpacked_data = None`, `_did_unpack = False`).  The match
predicate selected in `__init__` is immutable afterwards and is carried as a
parameter of the operations. -/
structure UnpackingGCSResponse where
  parsed_json : PyValue
  unpacked_data : Option PyValue
  did_unpack : Bool

/-- The state right after `__init__` (response.py:64-65). -/
def UnpackingGCSResponse.initState (parsed : PyValue) : UnpackingGCSResponse :=
  { parsed_json := parsed, unpacked_data := Option.none, did_unpack := false }

/-- The `full_data` property (response.py:67-73): the parsed JSON verbatim. -/
def full_data (r : UnpackingGCSResponse) : PyValue := r.parsed_json

/-- The `data` property (response.py:88-97): on first access run `_unpack`
and record the outcome; then return the unpacked dict when one was found,
else the parsed JSON itself.  Returns the produced value together with the
updated state. -/
def dataProp (mf : List (String × PyValue) → Bool) (r : UnpackingGCSResponse) :
    PyValue × UnpackingGCSResponse :=
  let r' :=
    if r.did_unpack then r
    else { r with unpacked_data := _unpack mf r.parsed_json, did_unpack := true }
  match r'.unpacked_data with
  | Option.some d => (d, r')
  | Option.none => (r'.parsed_json, r')

/-- `UnpackingGCSResponse.__init__` (response.py:52-62): the match argument
is either a string pattern (compiled via `_default_unpacking_match`, whose
failure on an invalid pattern propagates, yielding no object) or a callable
used as-is.  Returns the stored predicate together with the fresh state. -/
def mkUnpackingResponse (re_compile : String → Option RePattern)
    (parsed : PyValue)
    (m : Sum String (List (String × PyValue) → Bool)) :
    Option ((List (String × PyValue) → Bool) × UnpackingGCSResponse) :=
  match m with
  | Sum.inr f => Option.some (f, UnpackingGCSResponse.initState parsed)
  | Sum.inl pattern =>
    match _default_unpacking_match re_compile pattern with
    | Option.some f => Option.some (f, UnpackingGCSResponse.initState parsed)
    | Option.none => Option.none

/-- Instrumented scan: the same loop as `findFirst`, but the predicate takes
the index of the invocation (so a non-deterministic predicate can be modelled
as one that answers differently on different invocations) and the number of
invocations made so far is threaded through and returned. -/
def findFirstCounted (mf : Nat → List (String × PyValue) → Bool) :
    Nat → List PyValue → Option PyValue × Nat
  | k, [] => (Option.none, k)
  | k, item :: rest =>
    match item with
    | PyValue.dict kvs =>
      if mf k kvs then (Option.some (PyValue.dict kvs), k + 1)
      else findFirstCounted mf (k + 1) rest
    | _ => findFirstCounted mf k rest

/-- Instrumented `_unpack`: same shape dispatch as `_unpack`, with the
invocation counter threaded through the scan. -/
def unpackCounted (mf : Nat → List (String × PyValue) → Bool) (k : Nat)
    (parsed : PyValue) : Option PyValue × Nat :=
  match parsed with
  | PyValue.dict kvs =>
    match dictGet kvs "data" with
    | PyValue.list items => findFirstCounted mf k items
    | _ => (Option.none, k)
  | _ => (Option.none, k)

/-- Wrapper state paired with the number of predicate invocations made so
far, for reasoning about how often the match predicate runs. -/
structure CountedState where
  base : UnpackingGCSResponse
  calls : Nat

/-- The `data` property on the instrumented state: identical control flow to
`dataProp`, with the predicate-invocation counter threaded through. -/
def dataPropCounted (mf : Nat → List (String × PyValue) → Bool)
    (s : CountedState) : PyValue × CountedState :=
  let s' :=
    if s.base.did_unpack then s
    else
      let r := unpackCounted mf s.calls s.base.parsed_json
      { base := { s.base with unpacked_data := r.1, did_unpack := true },
        calls := r.2 }
  match s'.base.unpacked_data with
  | Option.some d => (d, s')
  | Option.none => (s'.base.parsed_json, s')

/-- Python errors that the raising embedding of `match_func` can surface. -/
inductive PyError where
  | keyError (k : String)
  | typeError

/-- Python dict indexing `d[key]`: the value, or a raised `KeyError` when the
key is absent. -/
def dictIndex (kvs : List (String × PyValue)) (key : String) :
    Except PyError PyValue :=
  match lookup kvs key with
  | Option.some v => Except.ok v
  | Option.none => Except.error (PyError.keyError key)

/-- `re.Pattern.fullmatch` applied to an arbitrary Python value: raises
`TypeError` unless the argument is a string. -/
def fullmatchE (p : RePattern) (v : PyValue) : Except PyError (Option Unit) :=
  match v with
  | PyValue.str s => Except.ok (p.fullmatch s)
  | _ => Except.error PyError.typeError

/-- Raising embedding of `match_func` (response.py:26-31): every dict access
`data["DATA_TYPE"]` is modelled as a fallible `dictIndex` (Python raises
`KeyError` on a missing key) and `fullmatch` as `fullmatchE` (raises
`TypeError` on a non-string argument), so that totality of the Python code is
a theorem rather than an artifact of the embedding. -/
def match_funcE (compiled_pattern : RePattern) (data : List (String × PyValue)) :
    Except PyError Bool :=
  if (lookup data "DATA_TYPE").isSome = false then Except.ok false
  else
    Except.bind (dictIndex data "DATA_TYPE") (fun v =>
      if pyIsStr v = false then Except.ok false
      else
        Except.bind (dictIndex data "DATA_TYPE") (fun v2 =>
          Except.bind (fullmatchE compiled_pattern v2) (fun m =>
            Except.ok (pyTruthy m))))

/-- The iteration key of `IterableGCSResponse` (response.py:20). -/
def IterableGCSResponse.default_iter_key : String := "data"

/-- Modelled from the spec: the `IterableResponse` base class is not among
the sources under review (only `IterableGCSResponse`, which sets its
`default_iter_key`, is).  Per the spec, iterating the wrapper yields, in
order, exactly the elements of the sequence held at the designated iteration
key of the currently resolved top-level mapping; when that view is not a
mapping holding a sequence there, nothing is yielded. -/
def iterItems (view : PyValue) (iterKey : String) : List PyValue :=
  match view with
  | PyValue.dict kvs =>
    match dictGet kvs iterKey with
    | PyValue.list xs => xs
    | _ => []
  | _ => []

/-- Modelled from the spec: item/key access on the wrapper addresses the
top-level mapping of the currently resolved view (the base HTTP response
class implementing `__getitem__` is not among the sources under review). -/
def getItem (view : PyValue) (key : String) : Option PyValue :=
  match view with
  | PyValue.dict kvs => lookup kvs key
  | _ => Option.none

/-- Reference predicate written from the spec's words (section 4.1): false
when the item has no `"DATA_TYPE"` key; false when the value under that key
is not a string; otherwise true exactly when the entire string value matches
the compiled pattern start-to-end. -/
def specDefaultMatch (compiled_pattern : RePattern)
    (item : List (String × PyValue)) : Bool :=
  match lookup item "DATA_TYPE" with
  | Option.some (PyValue.str s) => compiled_pattern.accepts s
  | Option.some _ => false
  | Option.none => false

/-- `isDictMatch mf` holds of a list element exactly when the element is a
mapping satisfying the predicate — the condition the scan selects on. -/
def isDictMatch (mf : List (String × PyValue) → Bool) : PyValue → Bool
  | PyValue.dict kvs => mf kvs
  | _ => false

/-- The shape guard of `_unpack` (response.py:80-82) as a boolean: the parsed
JSON is a mapping whose `"data"` key holds a sequence. -/
def hasDataList : PyValue → Bool
  | PyValue.dict kvs =>
    match dictGet kvs "data" with
    | PyValue.list _ => true
    | _ => false
  | _ => false

/-- The state transformation of one `data`-property access. -/
def dataStepState (mf : List (String × PyValue) → Bool)
    (r : UnpackingGCSResponse) : UnpackingGCSResponse :=
  (dataProp mf r).2

/-- A concrete compiled pattern matching exactly the literal string `tag`
(full-string semantics), used for concrete instances. -/
def matcherFor (tag : String) : RePattern := { accepts := fun s => s == tag }

/-- The spec's first-match example: a `"data"` array with tags a, b, b. -/
def exampleEnvelope : PyValue :=
  PyValue.dict [("data", PyValue.list
    [PyValue.dict [("DATA_TYPE", PyValue.str "a")],
     PyValue.dict [("DATA_TYPE", PyValue.str "b")],
     PyValue.dict [("DATA_TYPE", PyValue.str "b")]])]

section Lemmas

/-- `bool(pattern.fullmatch s)` is exactly the abstract full-match bit. -/
theorem pyTruthy_fullmatch (p : RePattern) (s : String) :
    pyTruthy (p.fullmatch s) = p.accepts s := by
  unfold RePattern.fullmatch pyTruthy
  cases h : p.accepts s <;> simp [h]

/-- The scan is `List.find?` of "is a mapping satisfying the predicate". -/
theorem findFirst_eq_find (mf : List (String × PyValue) → Bool)
    (items : List PyValue) :
    findFirst mf items = items.find? (isDictMatch mf) := by
  induction items with
  | nil => rfl
  | cons item rest ih =>
    cases item with
    | dict kvs =>
      by_cases h : mf kvs = true
      · simp [findFirst, List.find?, isDictMatch, h]
      · simp only [Bool.not_eq_true] at h
        simp [findFirst, List.find?, isDictMatch, h, ih]
    | none => simp [findFirst, List.find?, isDictMatch, ih]
    | bool b => simp [findFirst, List.find?, isDictMatch, ih]
    | int n => simp [findFirst, List.find?, isDictMatch, ih]
    | str s => simp [findFirst, List.find?, isDictMatch, ih]
    | list xs => simp [findFirst, List.find?, isDictMatch, ih]

/-- Whatever the scan returns was an element of the scanned list. -/
theorem findFirst_mem (mf : List (String × PyValue) → Bool)
    (items : List PyValue) (w : PyValue) (h : findFirst mf items = Option.some w) :
    w ∈ items := by
  rw [findFirst_eq_find] at h
  exact List.mem_of_find?_eq_some h

/-- A prefix of non-matching elements is scanned past without effect. -/
theorem findFirst_append_skip (mf : List (String × PyValue) → Bool)
    (pre l : List PyValue) (hpre : ∀ x ∈ pre, isDictMatch mf x = false) :
    findFirst mf (pre ++ l) = findFirst mf l := by
  induction pre with
  | nil => rfl
  | cons item rest ih =>
    have hitem := hpre item (List.mem_cons_self item rest)
    have hrest : ∀ x ∈ rest, isDictMatch mf x = false := by
      intro x hx
      exact hpre x (List.mem_cons_of_mem item hx)
    cases item with
    | dict kvs =>
      simp only [isDictMatch] at hitem
      simp [findFirst, hitem, ih hrest]
    | none => simp [findFirst, ih hrest]
    | bool b => simp [findFirst, ih hrest]
    | int n => simp [findFirst, ih hrest]
    | str s => simp [findFirst, ih hrest]
    | list xs => simp [findFirst, ih hrest]

/-- A matching mapping at the head of the list is returned at once. -/
theorem findFirst_cons_match (mf : List (String × PyValue) → Bool)
    (w : PyValue) (l : List PyValue) (hw : isDictMatch mf w = true) :
    findFirst mf (w :: l) = Option.some w := by
  cases w with
  | dict kvs => simp only [isDictMatch] at hw; simp [findFirst, hw]
  | none => simp [isDictMatch] at hw
  | bool b => simp [isDictMatch] at hw
  | int n => simp [isDictMatch] at hw
  | str s => simp [isDictMatch] at hw
  | list xs => simp [isDictMatch] at hw

/-- One `data` access never changes the stored parsed JSON. -/
theorem dataStepState_parsed_json (mf : List (String × PyValue) → Bool)
    (r : UnpackingGCSResponse) :
    (dataStepState mf r).parsed_json = r.parsed_json := by
  unfold dataStepState dataProp
  by_cases h : r.did_unpack = true
  · simp only [h, if_true]
    cases r.unpacked_data <;> simp
  · simp only [Bool.not_eq_true] at h
    simp only [h]
    cases _unpack mf r.parsed_json <;> simp

end Lemmas

/-- C3: the predicate built by the default matcher construction agrees, for
every pattern and every candidate mapping, with the spec's reference
definition — false when `"DATA_TYPE"` is absent, false when its value is not
a string (so `{"DATA_TYPE": 123}` never matches, whatever the pattern), and
otherwise true exactly when the entire string value matches the compiled
pattern start-to-end. -/
theorem default_match_follows_spec :
    (∀ (p : RePattern) (item : List (String × PyValue)),
        match_func p item = specDefaultMatch p item) ∧
    (∀ p : RePattern,
        match_func p [("DATA_TYPE", PyValue.int 123)] = false) := by
  constructor
  · intro p item
    unfold match_func specDefaultMatch dictGet
    cases h : lookup item "DATA_TYPE" with
    | none => simp
    | some v =>
      cases v <;> simp [pyIsStr, pyStrVal, pyTruthy_fullmatch]
  · intro p
    rfl

/-- C10: the default predicate is total on mappings — the raising embedding
(where dict indexing can surface `KeyError` and `fullmatch` can surface
`TypeError`) never raises, and always returns exactly the boolean computed by
the pure predicate, for every candidate mapping whatever the type of the
value (if any) under `"DATA_TYPE"`. -/
theorem match_func_never_raises :
    ∀ (p : RePattern) (item : List (String × PyValue)),
      match_funcE p item = Except.ok (match_func p item) := by
  intro p item
  unfold match_funcE match_func dictIndex dictGet
  cases h : lookup item "DATA_TYPE" with
  | none => simp
  | some v =>
    cases v <;> simp [pyIsStr, fullmatchE, pyStrVal, Except.bind]

/-- C7: with a string match specification, construction of the wrapper fails
exactly when pattern compilation fails — an invalid pattern yields no wrapper
at all (the compile error surfaces at construction), and a valid pattern
yields a wrapper whose stored predicate already closes over the compiled
pattern, so no compilation is deferred to later use. -/
theorem invalid_pattern_fails_at_construction :
    ∀ (re_compile : String → Option RePattern) (parsed : PyValue)
      (pattern : String),
      (re_compile pattern = Option.none →
        mkUnpackingResponse re_compile parsed (Sum.inl pattern) = Option.none) ∧
      (∀ p : RePattern, re_compile pattern = Option.some p →
        mkUnpackingResponse re_compile parsed (Sum.inl pattern) =
          Option.some (match_func p, UnpackingGCSResponse.initState parsed)) := by
  intro rc parsed pat
  constructor
  · intro h
    simp [mkUnpackingResponse, _default_unpacking_match, h]
  · intro p h
    simp [mkUnpackingResponse, _default_unpacking_match, h]

/-- Witness for C7 at a concrete failing compile and pattern. -/
theorem invalid_pattern_fails_at_construction_witness :
    mkUnpackingResponse (fun _ => Option.none) PyValue.none (Sum.inl "(") =
      Option.none :=
  (invalid_pattern_fails_at_construction (fun _ => Option.none) PyValue.none
    "(").1 rfl

/-- C6: non-mapping elements of the `"data"` sequence are skipped by the
scan — the predicate is never applied to them (the invocation counter does
not move), the scan continues past them rather than raising or aborting, and
a matching mapping after a non-mapping element is still found; concretely,
`["not-a-mapping", {"DATA_TYPE": "target"}]` with a matcher for `"target"`
yields the mapping. -/
theorem non_mapping_elements_skipped :
    (∀ (mfC : Nat → List (String × PyValue) → Bool) (k : Nat) (item : PyValue)
        (rest : List PyValue), pyIsDict item = false →
        findFirstCounted mfC k (item :: rest) = findFirstCounted mfC k rest) ∧
    (∀ (mf : List (String × PyValue) → Bool) (item : PyValue)
        (rest : List PyValue), pyIsDict item = false →
        findFirst mf (item :: rest) = findFirst mf rest) ∧
    findFirst (match_func (matcherFor "target"))
        [PyValue.str "not-a-mapping",
         PyValue.dict [("DATA_TYPE", PyValue.str "target")]] =
      Option.some (PyValue.dict [("DATA_TYPE", PyValue.str "target")]) := by
  refine ⟨?_, ?_, ?_⟩
  · intro mfC k item rest h
    cases item with
    | dict kvs => simp [pyIsDict] at h
    | none => rfl
    | bool b => rfl
    | int n => rfl
    | str s => rfl
    | list xs => rfl
  · intro mf item rest h
    cases item with
    | dict kvs => simp [pyIsDict] at h
    | none => rfl
    | bool b => rfl
    | int n => rfl
    | str s => rfl
    | list xs => rfl
  · rfl

/-- Witness for C6 at a concrete non-mapping element. -/
theorem non_mapping_elements_skipped_witness :
    findFirstCounted (fun _ _ => true) 0 [PyValue.int 7] =
      findFirstCounted (fun _ _ => true) 0 [] :=
  non_mapping_elements_skipped.1 (fun _ _ => true) 0 (PyValue.int 7) [] rfl

/-- C1: the unpack scan returns the first mapping element satisfying the
predicate — it equals `List.find?` over "is a mapping that matches", the
result is independent of everything after the first match (short-circuit),
and on the spec's example (tags a, b, b with a matcher for `"b"`) it returns
the `{"DATA_TYPE": "b"}` element after exactly two predicate invocations, so
the element at index 1 is returned and the one at index 2 is never
examined. -/
theorem unpack_returns_first_match :
    (∀ (mf : List (String × PyValue) → Bool) (items : List PyValue),
        findFirst mf items = items.find? (isDictMatch mf)) ∧
    (∀ (mf : List (String × PyValue) → Bool) (kvs : List (String × PyValue))
        (items : List PyValue), dictGet kvs "data" = PyValue.list items →
        _unpack mf (PyValue.dict kvs) = items.find? (isDictMatch mf)) ∧
    (∀ (mf : List (String × PyValue) → Bool) (pre : List PyValue) (w : PyValue)
        (post post' : List PyValue), isDictMatch mf w = true →
        (∀ x ∈ pre, isDictMatch mf x = false) →
        findFirst mf (pre ++ w :: post) = Option.some w ∧
        findFirst mf (pre ++ w :: post) = findFirst mf (pre ++ w :: post')) ∧
    (unpackCounted (fun _ item => match_func (matcherFor "b") item) 0
        exampleEnvelope =
      (Option.some (PyValue.dict [("DATA_TYPE", PyValue.str "b")]), 2) ∧
     _unpack (match_func (matcherFor "b")) exampleEnvelope =
      Option.some (PyValue.dict [("DATA_TYPE", PyValue.str "b")])) := by
  refine ⟨findFirst_eq_find, ?_, ?_, rfl, rfl⟩
  · intro mf kvs items h
    simp [_unpack, h, findFirst_eq_find]
  · intro mf pre w post post' hw hpre
    have h1 : findFirst mf (pre ++ w :: post) = Option.some w := by
      rw [findFirst_append_skip mf pre _ hpre, findFirst_cons_match mf w post hw]
    have h2 : findFirst mf (pre ++ w :: post') = Option.some w := by
      rw [findFirst_append_skip mf pre _ hpre, findFirst_cons_match mf w post' hw]
    exact ⟨h1, h1.trans h2.symm⟩

/-- Witness for C1 at a concrete envelope. -/
theorem unpack_returns_first_match_witness :
    _unpack (fun _ => true) (PyValue.dict [("data", PyValue.list [PyValue.int 1])]) =
      List.find? (isDictMatch (fun _ => true)) [PyValue.int 1] :=
  unpack_returns_first_match.2.1 (fun _ => true)
    [("data", PyValue.list [PyValue.int 1])] [PyValue.int 1] rfl

/-- C2: the value produced by the `data` property is the unpack result when
one exists and otherwise the parsed JSON itself; a matched result is an
element of the envelope's `"data"` sequence (a sub-object of `full_data`);
and when the body was unparsable (`full_data` is `None`) the `data` property
produces that same `None` rather than raising. -/
theorem data_is_submatch_or_full :
    ∀ (mf : List (String × PyValue) → Bool) (parsed : PyValue),
      ((dataProp mf (UnpackingGCSResponse.initState parsed)).1 =
        match _unpack mf parsed with
        | Option.some w => w
        | Option.none => parsed) ∧
      (∀ w : PyValue, _unpack mf parsed = Option.some w →
        ∃ kvs items, parsed = PyValue.dict kvs ∧
          dictGet kvs "data" = PyValue.list items ∧ w ∈ items) ∧
      (parsed = PyValue.none →
        (dataProp mf (UnpackingGCSResponse.initState parsed)).1 = PyValue.none) := by
  intro mf parsed
  have hval : (dataProp mf (UnpackingGCSResponse.initState parsed)).1 =
      match _unpack mf parsed with
      | Option.some w => w
      | Option.none => parsed := by
    cases h : _unpack mf parsed <;>
      simp [dataProp, UnpackingGCSResponse.initState, h]
  refine ⟨hval, ?_, ?_⟩
  · intro w hw
    cases parsed with
    | dict kvs =>
      refine ⟨kvs, ?_⟩
      simp only [_unpack] at hw
      cases hd : dictGet kvs "data" with
      | list items =>
        rw [hd] at hw
        exact ⟨items, rfl, rfl, findFirst_mem mf items w hw⟩
      | none => rw [hd] at hw; cases hw
      | bool b => rw [hd] at hw; cases hw
      | int n => rw [hd] at hw; cases hw
      | str s => rw [hd] at hw; cases hw
      | dict kvs2 => rw [hd] at hw; cases hw
    | none => cases hw
    | bool b => cases hw
    | int n => cases hw
    | str s => cases hw
    | list xs => cases hw
  · intro hp
    subst hp
    exact hval

/-- Witness for C2 at a concrete matched envelope. -/
theorem data_is_submatch_or_full_witness :
    ∃ kvs items,
      PyValue.dict [("data", PyValue.list [PyValue.dict []])] = PyValue.dict kvs ∧
      dictGet kvs "data" = PyValue.list items ∧ PyValue.dict [] ∈ items :=
  (data_is_submatch_or_full (fun _ => true)
    (PyValue.dict [("data", PyValue.list [PyValue.dict []])])).2.1
    (PyValue.dict []) rfl

/-- C5: whenever the parsed JSON is not a mapping, lacks a `"data"` key, or
holds a non-sequence there, the unpack operation returns `None` with zero
predicate invocations, and the `data` property falls back to the parsed JSON
itself. -/
theorem wrong_shape_no_scan :
    ∀ (mfC : Nat → List (String × PyValue) → Bool) (k : Nat)
      (mf : List (String × PyValue) → Bool) (parsed : PyValue),
      hasDataList parsed = false →
        unpackCounted mfC k parsed = (Option.none, k) ∧
        _unpack mf parsed = Option.none ∧
        (dataProp mf (UnpackingGCSResponse.initState parsed)).1 = parsed := by
  intro mfC k mf parsed h
  have h2 : _unpack mf parsed = Option.none := by
    cases parsed with
    | dict kvs =>
      simp only [hasDataList] at h
      simp only [_unpack]
      cases hd : dictGet kvs "data" <;> simp_all
    | none => rfl
    | bool b => rfl
    | int n => rfl
    | str s => rfl
    | list xs => rfl
  have h1 : unpackCounted mfC k parsed = (Option.none, k) := by
    cases parsed with
    | dict kvs =>
      simp only [hasDataList] at h
      simp only [unpackCounted]
      cases hd : dictGet kvs "data" <;> simp_all
    | none => rfl
    | bool b => rfl
    | int n => rfl
    | str s => rfl
    | list xs => rfl
  refine ⟨h1, h2, ?_⟩
  simp [dataProp, UnpackingGCSResponse.initState, h2]

/-- Witness for C5 at a concrete non-mapping body. -/
theorem wrong_shape_no_scan_witness :
    unpackCounted (fun _ _ => true) 0 (PyValue.str "x") = (Option.none, 0) ∧
    _unpack (fun _ => true) (PyValue.str "x") = Option.none ∧
    (dataProp (fun _ => true)
        (UnpackingGCSResponse.initState (PyValue.str "x"))).1 =
      PyValue.str "x" :=
  wrong_shape_no_scan (fun _ _ => true) 0 (fun _ => true) (PyValue.str "x") rfl

/-- C8: the unpacking process never mutates `full_data` — after any number of
`data`-property accesses, for any predicate and any starting state, the
stored parsed JSON (the whole envelope, its `"data"` sequence and its
elements) is exactly what it was at construction.  (The embedding is pure
because the source performs only reads — `isinstance`, `dict.get`, indexing,
iteration — so the state machine carries the parsed JSON unchanged.) -/
theorem full_data_never_mutated :
    ∀ (mf : List (String × PyValue) → Bool) (r : UnpackingGCSResponse) (n : Nat),
      full_data ((dataStepState mf)^[n] r) = full_data r := by
  intro mf r n
  induction n with
  | zero => rfl
  | succ m ih =>
    rw [Function.iterate_succ_apply']
    calc full_data (dataStepState mf ((dataStepState mf)^[m] r))
        = full_data ((dataStepState mf)^[m] r) :=
          dataStepState_parsed_json mf _
      _ = full_data r := ih

/-- C4: unpacking runs exactly once, on the first `data` access — the first
access performs precisely the predicate invocations of one `unpack` run over
the parsed JSON, and the resulting (value, state) pair is a fixed point of
every further access: the same value is produced, the state is unchanged,
and in particular the invocation counter never moves again, even for a
predicate that answers differently on different invocations. -/
theorem data_unpacks_exactly_once :
    ∀ (mf : Nat → List (String × PyValue) → Bool) (parsed : PyValue),
      (dataPropCounted mf ⟨UnpackingGCSResponse.initState parsed, 0⟩).2.calls =
        (unpackCounted mf 0 parsed).2 ∧
      ∀ n : Nat,
        (fun q : PyValue × CountedState => dataPropCounted mf q.2)^[n]
            (dataPropCounted mf ⟨UnpackingGCSResponse.initState parsed, 0⟩) =
          dataPropCounted mf ⟨UnpackingGCSResponse.initState parsed, 0⟩ := by
  intro mf parsed
  constructor
  · rcases h : unpackCounted mf 0 parsed with ⟨res, k⟩
    cases res <;> simp [dataPropCounted, UnpackingGCSResponse.initState, h]
  · have hfix : (fun q : PyValue × CountedState => dataPropCounted mf q.2)
        (dataPropCounted mf ⟨UnpackingGCSResponse.initState parsed, 0⟩) =
        dataPropCounted mf ⟨UnpackingGCSResponse.initState parsed, 0⟩ := by
      rcases h : unpackCounted mf 0 parsed with ⟨res, k⟩
      cases res <;> simp [dataPropCounted, UnpackingGCSResponse.initState, h]
    intro n
    exact Function.iterate_fixed hfix n

/-- C9: when the currently resolved view is a mapping whose `"data"` key
holds a sequence, iterating the wrapper (with the `IterableGCSResponse`
iteration key) yields exactly that sequence's elements in order, while item
access with key `"data"` returns the raw sequence itself; concretely, for
`{"data":[{"name":"a"},{"name":"b"}]}` iteration yields the two sub-items in
order. -/
theorem iteration_yields_data_elements :
    (∀ (kvs : List (String × PyValue)) (xs : List PyValue),
        dictGet kvs "data" = PyValue.list xs →
          iterItems (PyValue.dict kvs) IterableGCSResponse.default_iter_key = xs ∧
          getItem (PyValue.dict kvs) "data" =
            Option.some (PyValue.list xs)) ∧
    iterItems
        (PyValue.dict [("data", PyValue.list
          [PyValue.dict [("name", PyValue.str "a")],
           PyValue.dict [("name", PyValue.str "b")]])])
        IterableGCSResponse.default_iter_key =
      [PyValue.dict [("name", PyValue.str "a")],
       PyValue.dict [("name", PyValue.str "b")]] := by
  constructor
  · intro kvs xs h
    constructor
    · simp [iterItems, IterableGCSResponse.default_iter_key, h]
    · simp only [getItem]
      cases hl : lookup kvs "data" with
      | none => simp [dictGet, hl] at h
      | some v => simp [dictGet, hl] at h; rw [h]
  · rfl

/-- Witness for C9 at the spec's concrete view. -/
theorem iteration_yields_data_elements_witness :
    iterItems
        (PyValue.dict [("data", PyValue.list
          [PyValue.dict [("name", PyValue.str "a")],
           PyValue.dict [("name", PyValue.str "b")]])])
        IterableGCSResponse.default_iter_key =
      [PyValue.dict [("name", PyValue.str "a")],
       PyValue.dict [("name", PyValue.str "b")]] ∧
    getItem
        (PyValue.dict [("data", PyValue.list
          [PyValue.dict [("name", PyValue.str "a")],
           PyValue.dict [("name", PyValue.str "b")]])])
        "data" =
      Option.some (PyValue.list
        [PyValue.dict [("name", PyValue.str "a")],
         PyValue.dict [("name", PyValue.str "b")]]) :=
  iteration_yields_data_elements.1
    [("data", PyValue.list
      [PyValue.dict [("name", PyValue.str "a")],
       PyValue.dict [("name", PyValue.str "b")]])]
    [PyValue.dict [("name", PyValue.str "a")],
     PyValue.dict [("name", PyValue.str "b")]] rfl

end GlobusGCS
